import Mathlib

/-!
# LibBook backend (`server.js`): a shallow embedding

The server is a set of request handlers over three MongoDB collections
(`User`, `Seat`, `Booking`).  A collection is modelled as the list of its
documents in natural (insertion) order; `findOne` returns the first match,
an in-place update keeps the position of the document, an insert appends.

Documents are modelled at the level of their Mongoose schema types: a path
declared `String`/`Number` without default is an `Option` (missing or
present), a `Boolean` path with `default: false` is a `Bool`, the `required`
path `id` is a `String`.  A request body is modelled field by field as
`Option` (key absent / key present with a value already cast to the schema
type); JSON `null` values, keys outside the schema and store connectivity
failures are not modelled.  The three keys of a booking payload that the
handler passes on into a query filter (`seatId`, `date`, `startTime`) are
modelled as a `Value`: there an object of query operators is evaluated as a
query and an object that cannot be cast makes the query throw.  JavaScript numbers are only stored and returned,
never computed with; they are modelled as `Int`.  The unique index on `id` is
taken as built: an insert or update that would give two documents of a
collection the same `id` throws.  Path parameters (`:id`) are strings; the
route of the maintenance toggle is modelled with Express's rule that `:id`
never matches an empty segment (a seat of empty id can be stored by the layout
upsert, which runs no validators).

Handlers are run one after another (a handler is a function
`Store → Store × Response`).
-/

namespace LibBook

/-! ## Schemas -/

/-- Document of `userSchema`. -/
structure User where
  id : String
  name : Option String
  email : Option String
  password : Option String
  role : Option String
  studentId : Option String
  department : Option String
  yearSection : Option String
  mobile : Option String
  isBlocked : Bool
deriving DecidableEq, Repr

/-- Document of `seatSchema`. -/
structure Seat where
  id : String
  label : Option String
  type : Option String
  isMaintenance : Bool
  x : Option Int
  y : Option Int
  rotation : Option Int
deriving DecidableEq, Repr

/-- Document of `bookingSchema`. -/
structure Booking where
  id : String
  seatId : Option String
  userId : Option String
  userName : Option String
  date : Option String
  startTime : Option String
  endTime : Option String
  timestamp : Option Int
  status : Option String
deriving DecidableEq, Repr

/-- Value of a key of a request body that the handler passes on, as received,
into a query filter on a `String` path.  A number or boolean is cast to its
string by Mongoose and is a `str`. -/
inductive Value where
  | absent                                   -- key absent
  | str (s : String)                         -- a string
  | operator (selects : Option String → Bool)
      -- an object of query operators such as `{"$ne": "zzz"}`, or an array (read
      -- as `$in`): given by the stored values it selects
  | invalid                                  -- any other object: it cannot be cast

/-- The value is a plain one: a string, or absent. -/
def Value.isPlain : Value → Bool
  | .absent => true
  | .str _ => true
  | .operator _ => false
  | .invalid => false

/-- The filter `{ path: value }` cannot be cast: the query throws. -/
def Value.isInvalid : Value → Bool
  | .invalid => true
  | _ => false

/-- Whether the filter `{ path: value }` selects a document with the stored value
`v` at the path: equality for a string, missing for an absent key, the operators
themselves for an operator object. -/
def Value.selects : Value → Option String → Bool
  | .absent, v => v == none
  | .str s, v => v == some s
  | .operator f, v => f v
  | .invalid, _ => false

/-- What the document constructor stores at a `String` path for a plain value. -/
def Value.toOption : Value → Option String
  | .str s => some s
  | _ => none

/-- A stored value read as a body value. -/
def Value.ofStored : Option String → Value
  | some s => .str s
  | none => .absent

/-- The operator object `{"$ne": s}`: every document whose value is not `s`. -/
def Value.ne (s : String) : Value :=
  .operator (fun v => v != some s)

/-- Request body (or plain object) carrying user fields; every key may be absent. -/
structure UserBody where
  id : Option String := none
  name : Option String := none
  email : Option String := none
  password : Option String := none
  role : Option String := none
  studentId : Option String := none
  department : Option String := none
  yearSection : Option String := none
  mobile : Option String := none
  isBlocked : Option Bool := none
deriving DecidableEq, Repr

/-- One element of the seat layout posted to `/api/seats` (or a plain seat object).
The element carries its `id`; the other keys may be absent. -/
structure SeatBody where
  id : String
  label : Option String := none
  type : Option String := none
  isMaintenance : Option Bool := none
  x : Option Int := none
  y : Option Int := none
  rotation : Option Int := none
deriving DecidableEq, Repr

/-- Request body of `POST /api/bookings`; every key may be absent.  The keys
`seatId`, `date` and `startTime` go into the conflict query as they are received. -/
structure BookingBody where
  id : Option String := none
  seatId : Value := .absent
  userId : Option String := none
  userName : Option String := none
  date : Value := .absent
  startTime : Value := .absent
  endTime : Option String := none
  timestamp : Option Int := none
  status : Option String := none

/-- The three collections. -/
structure Store where
  users : List User
  seats : List Seat
  bookings : List Booking
deriving DecidableEq, Repr

/-! ## Store primitives -/

/-- Errors thrown by Mongoose / MongoDB that the handlers catch. -/
inductive StoreError where
  | validation    -- ValidationError of `save`: `required` failed or a path cannot be cast
  | duplicateKey  -- E11000 on the unique index of `id`
  | cast          -- CastError of a query: a filter value cannot be cast
deriving DecidableEq, Repr

/-- The `required: true` validator of a `String` path: the value must be present
and, for strings, non-empty. -/
def requiredString (v : Option String) : Except StoreError String :=
  match v with
  | none => .error .validation
  | some s => if s = "" then .error .validation else .ok s

/-- Insert of one document under the unique index on `id`. -/
def insertOne {α : Type} (key : α → String) (coll : List α) (doc : α) :
    Except StoreError (List α) :=
  if coll.any (fun d => key d == key doc) then .error .duplicateKey
  else .ok (coll ++ [doc])

/-- The call `deleteMany(filter)`: every document matching the filter is removed. -/
def deleteMany {α : Type} (p : α → Bool) (coll : List α) : List α :=
  coll.filter (fun d => !p d)

/-- In-place update of the first document matching `p`. -/
def updateFirst {α : Type} (p : α → Bool) (f : α → α) : List α → List α
  | [] => []
  | a :: as => if p a then f a :: as else a :: updateFirst p f as

/-- Merge of one `$set` key: an absent key leaves the stored value. -/
def setField {α : Type} (old : Option α) (new : Option α) : Option α :=
  match new with
  | some v => some v
  | none => old

/-! ## Documents from plain objects -/

/-- The document `new User(body)` after validation. -/
def User.ofBody (body : UserBody) : Except StoreError User := do
  let id ← requiredString body.id
  pure { id := id, name := body.name, email := body.email, password := body.password,
         role := body.role, studentId := body.studentId, department := body.department,
         yearSection := body.yearSection, mobile := body.mobile,
         isBlocked := body.isBlocked.getD false }

/-- The booking document carrying the fields of the body under the given id. -/
def Booking.doc (id : String) (body : BookingBody) : Booking :=
  { id := id, seatId := body.seatId.toOption, userId := body.userId, userName := body.userName,
    date := body.date.toOption, startTime := body.startTime.toOption, endTime := body.endTime,
    timestamp := body.timestamp, status := body.status }

/-- Cast of a body value to a `String` path by the document constructor: an object
cannot be cast, which `save` reports as a validation error. -/
def Value.cast (v : Value) : Except StoreError (Option String) :=
  if v.isPlain then .ok v.toOption else .error .validation

/-- The document `new Booking(body)` after validation. -/
def Booking.ofBody (body : BookingBody) : Except StoreError Booking := do
  let _ ← body.seatId.cast
  let _ ← body.date.cast
  let _ ← body.startTime.cast
  let id ← requiredString body.id
  pure (Booking.doc id body)

/-- The seat document built from a plain seat object, defaults applied
(no validation: used by the upsert, which runs no validators). -/
def Seat.ofBody (body : SeatBody) : Seat :=
  { id := body.id, label := body.label, type := body.type,
    isMaintenance := body.isMaintenance.getD false,
    x := body.x, y := body.y, rotation := body.rotation }

/-- The document `new Seat(body)` after validation. -/
def Seat.validated (body : SeatBody) : Except StoreError Seat := do
  let _ ← requiredString (some body.id)
  pure (Seat.ofBody body)

/-- The update `{ $set: body }` applied to a stored user. -/
def User.set (body : UserBody) (u : User) : User :=
  { id := body.id.getD u.id,
    name := setField u.name body.name, email := setField u.email body.email,
    password := setField u.password body.password, role := setField u.role body.role,
    studentId := setField u.studentId body.studentId,
    department := setField u.department body.department,
    yearSection := setField u.yearSection body.yearSection,
    mobile := setField u.mobile body.mobile,
    isBlocked := body.isBlocked.getD u.isBlocked }

/-- The update `{ $set: seat }` applied to a stored seat. -/
def Seat.set (body : SeatBody) (s : Seat) : Seat :=
  { id := body.id,
    label := setField s.label body.label, type := setField s.type body.type,
    isMaintenance := body.isMaintenance.getD s.isMaintenance,
    x := setField s.x body.x, y := setField s.y body.y,
    rotation := setField s.rotation body.rotation }

/-- Validation of every document of an `insertMany` before anything is written. -/
def validateAll {α β : Type} (validate : β → Except StoreError α) :
    List β → Except StoreError (List α)
  | [] => .ok []
  | o :: os =>
    match validate o with
    | .error e => .error e
    | .ok d =>
      match validateAll validate os with
      | .error e => .error e
      | .ok ds => .ok (d :: ds)

/-- Ordered bulk insert: documents are inserted one by one until the first error;
the documents inserted before the error stay.  Result: the collection after the
call and the error thrown, if any. -/
def insertAll {α : Type} (key : α → String) (coll : List α) :
    List α → List α × Option StoreError
  | [] => (coll, none)
  | d :: ds =>
    match insertOne key coll d with
    | .error e => (coll, some e)
    | .ok coll1 => insertAll key coll1 ds

/-- The call `Model.insertMany(objs)` (ordered): all documents are validated
first, then inserted in order. -/
def insertMany {α β : Type} (validate : β → Except StoreError α) (key : α → String)
    (coll : List α) (objs : List β) : List α × Option StoreError :=
  match validateAll validate objs with
  | .error e => (coll, some e)
  | .ok docs => insertAll key coll docs

/-! ## Initial data seeding -/

def INITIAL_SEATS : List SeatBody := [
  -- Lounge
  { id := "s-l1", label := some "L1", type := some "Standard", isMaintenance := some false, x := some 1, y := some 1, rotation := some 180 },
  { id := "s-l2", label := some "L2", type := some "Standard", isMaintenance := some false, x := some 2, y := some 1, rotation := some 180 },
  { id := "s-l3", label := some "L3", type := some "Standard", isMaintenance := some false, x := some 3, y := some 1, rotation := some 180 },
  -- PC
  { id := "s-pc1", label := some "PC1", type := some "PC Station", isMaintenance := some false, x := some 9, y := some 0, rotation := some 180 },
  { id := "s-pc2", label := some "PC2", type := some "PC Station", isMaintenance := some false, x := some 10, y := some 0, rotation := some 180 },
  { id := "s-pc3", label := some "PC3", type := some "PC Station", isMaintenance := some false, x := some 11, y := some 0, rotation := some 180 },
  { id := "s-pc4", label := some "PC4", type := some "PC Station", isMaintenance := some false, x := some 13, y := some 1, rotation := some 225 },
  -- Group 1
  { id := "s-t1-1", label := some "T1-A", type := some "Quiet Zone", isMaintenance := some false, x := some 11, y := some 3, rotation := some 180 },
  { id := "s-t1-2", label := some "T1-B", type := some "Quiet Zone", isMaintenance := some false, x := some 11, y := some 5, rotation := some 0 },
  { id := "s-t1-3", label := some "T1-C", type := some "Quiet Zone", isMaintenance := some false, x := some 10, y := some 4, rotation := some 90 },
  { id := "s-t1-4", label := some "T1-D", type := some "Quiet Zone", isMaintenance := some false, x := some 12, y := some 4, rotation := some 270 },
  -- Group 2
  { id := "s-t2-1", label := some "T2-A", type := some "Quiet Zone", isMaintenance := some false, x := some 11, y := some 7, rotation := some 180 },
  { id := "s-t2-2", label := some "T2-B", type := some "Quiet Zone", isMaintenance := some false, x := some 11, y := some 9, rotation := some 0 },
  { id := "s-t2-3", label := some "T2-C", type := some "Quiet Zone", isMaintenance := some false, x := some 10, y := some 8, rotation := some 90 },
  { id := "s-t2-4", label := some "T2-D", type := some "Quiet Zone", isMaintenance := some false, x := some 12, y := some 8, rotation := some 270 },
  -- Carrels
  { id := "s-c1", label := some "C1", type := some "Standard", isMaintenance := some false, x := some 1, y := some 4, rotation := some 90 },
  { id := "s-c2", label := some "C2", type := some "Standard", isMaintenance := some false, x := some 2, y := some 4, rotation := some 90 },
  { id := "s-c3", label := some "C3", type := some "Standard", isMaintenance := some false, x := some 3, y := some 4, rotation := some 90 },
  { id := "s-c4", label := some "C4", type := some "Standard", isMaintenance := some false, x := some 4, y := some 4, rotation := some 90 },
  { id := "s-c5", label := some "C5", type := some "Standard", isMaintenance := some false, x := some 1, y := some 6, rotation := some 90 },
  { id := "s-c6", label := some "C6", type := some "Standard", isMaintenance := some false, x := some 2, y := some 6, rotation := some 90 },
  { id := "s-c7", label := some "C7", type := some "Standard", isMaintenance := some false, x := some 3, y := some 6, rotation := some 90 },
  { id := "s-c8", label := some "C8", type := some "Standard", isMaintenance := some false, x := some 4, y := some 6, rotation := some 90 },
  { id := "s-c9", label := some "C9", type := some "Standard", isMaintenance := some false, x := some 1, y := some 8, rotation := some 90 },
  { id := "s-c10", label := some "C10", type := some "Standard", isMaintenance := some false, x := some 2, y := some 8, rotation := some 90 },
  { id := "s-c11", label := some "C11", type := some "Standard", isMaintenance := some false, x := some 3, y := some 8, rotation := some 90 },
  { id := "s-c12", label := some "C12", type := some "Standard", isMaintenance := some false, x := some 4, y := some 8, rotation := some 90 }
]

def ADMIN_USER : UserBody :=
  { id := some "admin-1",
    name := some "Library Admin",
    email := some "admin@library.edu",
    password := some "admin",
    role := some "ADMIN",
    isBlocked := some false }

def DEMO_STUDENT : UserBody :=
  { id := some "student-1",
    name := some "John Doe",
    email := some "john@student.edu",
    password := some "pass",
    role := some "STUDENT",
    studentId := some "CS2024001",
    department := some "Computer Science",
    yearSection := some "3-A",
    mobile := some "5550123456",
    isBlocked := some false }

/-- Seeder `seedData`: each collection is seeded only when it is empty; an error
thrown by an insert is caught (logged) and ends the routine. -/
def seedData (s : Store) : Store :=
  let seeded :=
    if s.seats.length = 0 then insertMany Seat.validated Seat.id s.seats INITIAL_SEATS
    else (s.seats, none)
  let s1 := { s with seats := seeded.1 }
  match seeded.2 with
  | some _ => s1
  | none =>
    if s1.users.length = 0 then
      { s1 with users := (insertMany User.ofBody User.id s1.users [ADMIN_USER, DEMO_STUDENT]).1 }
    else s1

/-! ## Responses -/

/-- JSON body of a response. -/
inductive Body where
  | users (l : List User)
  | seats (l : List Seat)
  | bookings (l : List Booking)
  | user (u : Option User)        -- `null` when the lookup found nothing
  | seat (s : Seat)
  | booking (b : Option Booking)  -- `null` when the lookup found nothing
  | success                       -- `{ success: true }`
  | error (message : String)      -- `{ error: message }` with a fixed message
  | failure (e : StoreError)      -- `{ error: e.message }` of a caught error
  | noRoute                       -- Express's own page for a request no route matches
deriving DecidableEq, Repr

/-- HTTP status and JSON body; `res.json` without `res.status` answers 200. -/
structure Response where
  status : Nat
  body : Body
deriving DecidableEq, Repr

/-! ## API routes -/

/-- Handler of `GET /api/users`. -/
def listUsers (s : Store) : Store × Response :=
  (s, ⟨200, .users s.users⟩)

/-- Handler of `POST /api/users`. -/
def createUser (s : Store) (body : UserBody) : Store × Response :=
  match User.ofBody body with
  | .error e => (s, ⟨500, .failure e⟩)
  | .ok user =>
    match insertOne User.id s.users user with
    | .error e => (s, ⟨500, .failure e⟩)
    | .ok users => ({ s with users := users }, ⟨200, .user (some user)⟩)

/-- Handler of `PUT /api/users/:id`. -/
def updateUser (s : Store) (id : String) (body : UserBody) : Store × Response :=
  match s.users.find? (fun u => u.id == id) with
  | none => (s, ⟨200, .user none⟩)
  | some u =>
    let user := User.set body u
    if user.id ≠ u.id ∧ s.users.any (fun d => d.id == user.id) then
      (s, ⟨500, .failure .duplicateKey⟩)
    else
      ({ s with users := updateFirst (fun u => u.id == id) (User.set body) s.users },
       ⟨200, .user (some user)⟩)

/-- Handler of `GET /api/seats`. -/
def listSeats (s : Store) : Store × Response :=
  (s, ⟨200, .seats s.seats⟩)

/-- The call `Seat.findOneAndUpdate({ id: seat.id }, seat, { upsert: true })`. -/
def upsertSeat (coll : List Seat) (seat : SeatBody) : List Seat :=
  if coll.any (fun d => d.id == seat.id) then
    updateFirst (fun d => d.id == seat.id) (Seat.set seat) coll
  else coll ++ [Seat.ofBody seat]

/-- Handler of `POST /api/seats`. -/
def replaceSeatLayout (s : Store) (seats : List SeatBody) : Store × Response :=
  let incomingIds := seats.map (fun s => s.id)
  let kept := deleteMany (fun d => !incomingIds.contains d.id) s.seats
  ({ s with seats := seats.foldl upsertSeat kept }, ⟨200, .success⟩)

/-- The assignment `seat.isMaintenance = !seat.isMaintenance`. -/
def Seat.toggle (seat : Seat) : Seat :=
  { seat with isMaintenance := !seat.isMaintenance }

/-- Route `POST /api/seats/toggle-maintenance/:id` and its handler.  The segment
`:id` never matches the empty string: such a request reaches no handler and
Express answers its own 404 page.  `seat.save()` validates the document (the
`required` path `id`) before it rewrites it in place. -/
def toggleMaintenance (s : Store) (id : String) : Store × Response :=
  if id = "" then (s, ⟨404, .noRoute⟩)
  else
    match s.seats.find? (fun d => d.id == id) with
    | some seat =>
      let seat := seat.toggle
      match requiredString (some seat.id) with
      | .error e => (s, ⟨500, .failure e⟩)
      | .ok _ =>
        ({ s with seats := updateFirst (fun d => d.id == id) (fun _ => seat) s.seats },
         ⟨200, .seat seat⟩)
    | none => (s, ⟨404, .error "Seat not found"⟩)

/-- Handler of `GET /api/bookings`. -/
def listBookings (s : Store) : Store × Response :=
  (s, ⟨200, .bookings s.bookings⟩)

/-- The filter of the conflict query of `POST /api/bookings`:
`{ seatId: newBooking.seatId, date: newBooking.date, startTime:
newBooking.startTime, status: 'ACTIVE' }`, the three values as received. -/
def activeOnSlot (newBooking : BookingBody) (b : Booking) : Bool :=
  newBooking.seatId.selects b.seatId &&
  newBooking.date.selects b.date &&
  newBooking.startTime.selects b.startTime &&
  b.status == some "ACTIVE"

/-- The filter of the conflict query cannot be cast. -/
def filterInvalid (newBooking : BookingBody) : Bool :=
  newBooking.seatId.isInvalid || newBooking.date.isInvalid || newBooking.startTime.isInvalid

/-- Handler of `POST /api/bookings`. -/
def createBooking (s : Store) (newBooking : BookingBody) : Store × Response :=
  if filterInvalid newBooking then (s, ⟨500, .failure .cast⟩)
  else
    let existing := s.bookings.find? (activeOnSlot newBooking)
    match existing with
    | some _ => (s, ⟨409, .error "Seat already booked"⟩)
    | none =>
      match Booking.ofBody newBooking with
      | .error e => (s, ⟨500, .failure e⟩)
      | .ok booking =>
        match insertOne Booking.id s.bookings booking with
        | .error e => (s, ⟨500, .failure e⟩)
        | .ok bookings => ({ s with bookings := bookings }, ⟨201, .booking (some booking)⟩)

/-- The update `{ status: 'CANCELLED' }` applied to a stored booking. -/
def Booking.cancel (b : Booking) : Booking :=
  { b with status := some "CANCELLED" }

/-- Handler of `PUT /api/bookings/:id/cancel`. -/
def cancelBooking (s : Store) (id : String) : Store × Response :=
  let booking := (s.bookings.find? (fun b => b.id == id)).map Booking.cancel
  ({ s with bookings := updateFirst (fun b => b.id == id) Booking.cancel s.bookings },
   ⟨200, .booking booking⟩)

/-! ## Handlers run one after another -/

/-- One request to the server. -/
inductive Op where
  | listUsers
  | createUser (body : UserBody)
  | updateUser (id : String) (body : UserBody)
  | listSeats
  | replaceSeatLayout (seats : List SeatBody)
  | toggleMaintenance (id : String)
  | listBookings
  | createBooking (body : BookingBody)
  | cancelBooking (id : String)

/-- The handler serving a request. -/
def step (s : Store) : Op → Store × Response
  | .listUsers => listUsers s
  | .createUser body => createUser s body
  | .updateUser id body => updateUser s id body
  | .listSeats => listSeats s
  | .replaceSeatLayout seats => replaceSeatLayout s seats
  | .toggleMaintenance id => toggleMaintenance s id
  | .listBookings => listBookings s
  | .createBooking body => createBooking s body
  | .cancelBooking id => cancelBooking s id

/-- Store after a finite sequence of requests served one after another. -/
def run (s : Store) (ops : List Op) : Store :=
  ops.foldl (fun st op => (step st op).1) s

/-! ## Predicates of the specification -/

/-- The booking is active. -/
def Booking.isActive (b : Booking) : Prop := b.status = some "ACTIVE"

instance (b : Booking) : Decidable b.isActive :=
  inferInstanceAs (Decidable (b.status = some "ACTIVE"))

/-- Two bookings are on the same slot `(seatId, date, startTime)`. -/
def sameSlot (a b : Booking) : Prop :=
  a.seatId = b.seatId ∧ a.date = b.date ∧ a.startTime = b.startTime

instance (a b : Booking) : Decidable (sameSlot a b) :=
  inferInstanceAs (Decidable (a.seatId = b.seatId ∧ a.date = b.date ∧ a.startTime = b.startTime))

/-- Slot uniqueness: no two bookings of the collection (at different positions)
are both ACTIVE on the same slot. -/
def SlotUnique (bookings : List Booking) : Prop :=
  bookings.Pairwise (fun a b => ¬ (a.isActive ∧ b.isActive ∧ sameSlot a b))

instance (bookings : List Booking) : Decidable (SlotUnique bookings) :=
  inferInstanceAs (Decidable
    (bookings.Pairwise (fun a b : Booking => ¬ (a.isActive ∧ b.isActive ∧ sameSlot a b))))

/-- The documents of the seat fixture. -/
def seededSeats : List Seat := INITIAL_SEATS.map Seat.ofBody

/-- The documents of the user fixture. -/
def seededUsers : List User := [
  { id := "admin-1", name := some "Library Admin", email := some "admin@library.edu",
    password := some "admin", role := some "ADMIN", studentId := none, department := none,
    yearSection := none, mobile := none, isBlocked := false },
  { id := "student-1", name := some "John Doe", email := some "john@student.edu",
    password := some "pass", role := some "STUDENT", studentId := some "CS2024001",
    department := some "Computer Science", yearSection := some "3-A",
    mobile := some "5550123456", isBlocked := false }]

/-! ## Concrete scenarios -/

/-- A store holding one seat under maintenance and nothing else. -/
def maintenanceStore : Store :=
  ⟨[], [{ id := "s1", label := none, type := some "Standard", isMaintenance := true,
          x := none, y := none, rotation := none }], []⟩

/-- The booking payload of the concrete scenario of the specification. -/
def scenarioBooking : BookingBody :=
  { id := some "b1", seatId := .str "s1", date := .str "2024-05-01",
    startTime := .str "10:00", endTime := some "11:00", status := some "ACTIVE" }

/-- A payload for the same slot that arrives with status CANCELLED. -/
def cancelledPayload : BookingBody :=
  { scenarioBooking with status := some "CANCELLED" }

/-- A second payload for the slot of the scenario, under a fresh id. -/
def secondBooking : BookingBody :=
  { scenarioBooking with id := some "b2" }

/-- A second payload for the slot of the scenario whose id is the empty string. -/
def emptyIdBooking : BookingBody :=
  { scenarioBooking with id := some "" }

/-- A payload for the date and start time of the scenario whose `seatId` is the
operator object `{"$ne": "zzz"}`. -/
def operatorBooking : BookingBody :=
  { scenarioBooking with id := some "b2", seatId := Value.ne "zzz" }

/-- A store whose only seat has the empty string as id (as stored by
`POST /api/seats` with the layout of one seat of id `""`). -/
def emptyIdSeatStore : Store :=
  ⟨[], [Seat.ofBody { id := "" }], []⟩

/-- The store after the scenario booking was created on the empty store. -/
def bookedStore : Store :=
  ⟨[], [], [Booking.doc "b1" scenarioBooking]⟩

/-- A store with manual data: one user, the seats A, B, C, no booking. -/
def manualStore : Store :=
  ⟨[{ id := "u1", name := some "Ann", email := none, password := none, role := some "STUDENT",
      studentId := none, department := none, yearSection := none, mobile := none,
      isBlocked := false }],
   [Seat.ofBody { id := "A", label := some "a" }, Seat.ofBody { id := "B", label := some "b" },
    Seat.ofBody { id := "C", isMaintenance := some true }], []⟩

/-- The store after the scenario booking was created on the empty store and cancelled. -/
def cancelledStore : Store :=
  ⟨[], [], [(Booking.doc "b1" scenarioBooking).cancel]⟩

/-- A store holding the seats A, B, C and nothing else. -/
def abcStore : Store :=
  ⟨[], [Seat.ofBody { id := "A", label := some "a" }, Seat.ofBody { id := "B", label := some "b" },
        Seat.ofBody { id := "C", isMaintenance := some true }], []⟩

/-- The layout B, C, D. -/
def bcdLayout : List SeatBody :=
  [{ id := "B" }, { id := "C", label := some "c" }, { id := "D" }]

/-- The conflict signal of `POST /api/bookings`. -/
def conflict : Response := ⟨409, .error "Seat already booked"⟩

/-- The answer of Express to a request that no route matches. -/
def noRoute : Response := ⟨404, .noRoute⟩

/-- The not-found signal of the maintenance toggle. -/
def seatNotFound : Response := ⟨404, .error "Seat not found"⟩

/-! ## In-place updates -/

theorem updateFirst_append_last {α : Type} (p : α → Bool) (f : α → α) (l : List α) (b : α)
    (h : ∀ a ∈ l, p a = false) (hb : p b = true) :
    updateFirst p f (l ++ [b]) = l ++ [f b] := by
  induction l with
  | nil => simp [updateFirst, hb]
  | cons a as ih =>
    have ha : p a = false := h a (List.mem_cons_self a as)
    have hr := ih (fun c hc => h c (List.mem_cons_of_mem a hc))
    simp [updateFirst, ha, hr]

theorem updateFirst_map {α β : Type} (p : α → Bool) (f : α → α) (g : α → β) (l : List α)
    (h : ∀ a, p a = true → g (f a) = g a) : (updateFirst p f l).map g = l.map g := by
  induction l with
  | nil => rfl
  | cons a as ih =>
    by_cases ha : p a = true
    · simp [updateFirst, ha, h a ha]
    · simp [updateFirst, ha, ih]

/-- The update of the first match only depends on what the function does there. -/
theorem updateFirst_congr {α : Type} (p : α → Bool) (f g : α → α) (l : List α) (a : α)
    (h : l.find? p = some a) (hfg : f a = g a) : updateFirst p f l = updateFirst p g l := by
  induction l with
  | nil => rfl
  | cons b bs ih =>
    by_cases hb : p b = true
    · simp only [List.find?, hb, Option.some.injEq] at h
      subst h
      simp [updateFirst, hb, hfg]
    · have hb2 : p b = false := by simpa using hb
      simp only [List.find?, hb2] at h
      simp [updateFirst, hb, ih h]

/-- Under unique keys the lookup by the key of a stored document finds that document. -/
theorem find?_key_of_nodup {α : Type} (key : α → String) (l : List α) (a : α)
    (hn : (l.map key).Nodup) (ha : a ∈ l) : l.find? (fun d => key d == key a) = some a := by
  induction l with
  | nil => cases ha
  | cons b bs ih =>
    rw [List.map_cons, List.nodup_cons] at hn
    rcases List.mem_cons.1 ha with h | h
    · subst h
      simp
    · have hne : key b ≠ key a := by
        intro he
        apply hn.1
        rw [he]
        exact List.mem_map_of_mem key h
      have hb : (key b == key a) = false := by simpa using hne
      simp only [List.find?, hb]
      exact ih hn.2 h

/-- An update that fixes the first match changes nothing. -/
theorem updateFirst_fixed {α : Type} (p : α → Bool) (f : α → α) (l : List α) (a : α)
    (h : l.find? p = some a) (hf : f a = a) : updateFirst p f l = l := by
  induction l with
  | nil => rfl
  | cons b bs ih =>
    by_cases hb : p b = true
    · simp only [List.find?, hb, Option.some.injEq] at h
      subst h
      simp [updateFirst, hb, hf]
    · have hb2 : p b = false := by simpa using hb
      simp only [List.find?, hb2] at h
      simp [updateFirst, hb, ih h]

/-- Position form: the first match sits at an index, and only that index changes. -/
theorem updateFirst_eq_set {α : Type} (p : α → Bool) (f : α → α) (l : List α) (a : α)
    (h : l.find? p = some a) :
    ∃ i, l[i]? = some a ∧ updateFirst p f l = l.set i (f a) := by
  induction l with
  | nil => cases h
  | cons b bs ih =>
    by_cases hb : p b = true
    · simp only [List.find?, hb, Option.some.injEq] at h
      subst h
      exact ⟨0, by simp, by simp [updateFirst, hb]⟩
    · have hb2 : p b = false := by simpa using hb
      simp only [List.find?, hb2] at h
      obtain ⟨i, hi, hs⟩ := ih h
      exact ⟨i + 1, by simpa using hi, by simp [updateFirst, hb, hs]⟩

/-- An update that keeps the match and is idempotent on documents is idempotent. -/
theorem updateFirst_idem {α : Type} (p : α → Bool) (f : α → α) (l : List α)
    (hp : ∀ a, p a = true → p (f a) = true) (hf : ∀ a, f (f a) = f a) :
    updateFirst p f (updateFirst p f l) = updateFirst p f l := by
  induction l with
  | nil => rfl
  | cons a as ih =>
    by_cases ha : p a = true
    · simp [updateFirst, ha, hp a ha, hf]
    · simp [updateFirst, ha, ih]

/-- An update that keeps the match and is an involution on documents undoes itself. -/
theorem updateFirst_invol {α : Type} (p : α → Bool) (f : α → α) (l : List α)
    (hp : ∀ a, p a = true → p (f a) = true) (hf : ∀ a, f (f a) = a) :
    updateFirst p f (updateFirst p f l) = l := by
  induction l with
  | nil => rfl
  | cons a as ih =>
    by_cases ha : p a = true
    · simp [updateFirst, ha, hp a ha, hf]
    · simp [updateFirst, ha, ih]

/-- The first match of the updated collection is the updated first match. -/
theorem find?_updateFirst {α : Type} (p : α → Bool) (f : α → α) (l : List α)
    (hp : ∀ a, p a = true → p (f a) = true) :
    (updateFirst p f l).find? p = (l.find? p).map f := by
  induction l with
  | nil => rfl
  | cons a as ih =>
    by_cases ha : p a = true
    · simp [updateFirst, ha, hp a ha]
    · simp [updateFirst, ha, ih]

/-- At every position the update leaves the document or applies the function to it. -/
theorem updateFirst_getElem? {α : Type} (p : α → Bool) (f : α → α) (l : List α) (i : Nat) :
    (updateFirst p f l)[i]? = l[i]? ∨ (updateFirst p f l)[i]? = (l[i]?).map f := by
  induction l generalizing i with
  | nil => left; rfl
  | cons a as ih =>
    by_cases ha : p a = true
    · cases i with
      | zero => right; simp [updateFirst, ha]
      | succ j => left; simp [updateFirst, ha]
    · cases i with
      | zero => left; simp [updateFirst, ha]
      | succ j =>
        rcases ih j with h | h
        · left; simpa [updateFirst, ha] using h
        · right; simpa [updateFirst, ha] using h

/-- A pairwise relation survives an update that keeps it on both sides. -/
theorem updateFirst_pairwise {α : Type} (R : α → α → Prop) (p : α → Bool) (f : α → α)
    (l : List α) (hl : ∀ a b, R a b → R (f a) b) (hr : ∀ a b, R a b → R a (f b))
    (h : l.Pairwise R) : (updateFirst p f l).Pairwise R := by
  induction l with
  | nil => exact List.Pairwise.nil
  | cons a as ih =>
    rw [List.pairwise_cons] at h
    by_cases ha : p a = true
    · simp only [updateFirst, ha, if_true, List.pairwise_cons]
      exact ⟨fun b hb => hl a b (h.1 b hb), h.2⟩
    · have ha2 : p a = false := by simpa using ha
      have hu : updateFirst p f (a :: as) = a :: updateFirst p f as := by
        simp [updateFirst, ha2]
      rw [hu, List.pairwise_cons]
      refine ⟨?_, ih h.2⟩
      intro b hb
      obtain ⟨i, hi⟩ := List.getElem?_of_mem hb
      rcases updateFirst_getElem? p f as i with h1 | h1
      · rw [h1] at hi
        exact h.1 b (List.getElem?_mem hi)
      · rw [h1] at hi
        cases hc : as[i]? with
        | none => simp [hc] at hi
        | some c =>
          simp only [hc, Option.map_some', Option.some.injEq] at hi
          subst hi
          exact hr a c (h.1 c (List.getElem?_mem hc))

/-! ## The seeder -/

/-- The seat fixture is valid and duplicate free: inserted into an empty collection
it is stored whole, without error. -/
theorem insertMany_INITIAL_SEATS :
    insertMany Seat.validated Seat.id [] INITIAL_SEATS = (seededSeats, none) := by
  decide

/-- The user fixture is valid and duplicate free. -/
theorem insertMany_seed_users :
    insertMany User.ofBody User.id [] [ADMIN_USER, DEMO_STUDENT] = (seededUsers, none) := by
  decide

/-- Seats after seeding: the fixture if the collection was empty, untouched otherwise. -/
theorem seedData_seats (s : Store) :
    (seedData s).seats = if s.seats = [] then seededSeats else s.seats := by
  cases s with
  | mk users seats bookings =>
    cases seats with
    | nil =>
      cases users <;> simp [seedData, insertMany_INITIAL_SEATS, insertMany_seed_users]
    | cons a as => cases users <;> simp [seedData, insertMany_seed_users]

/-- Users after seeding: the fixture if the collection was empty, untouched otherwise. -/
theorem seedData_users (s : Store) :
    (seedData s).users = if s.users = [] then seededUsers else s.users := by
  cases s with
  | mk users seats bookings =>
    cases seats with
    | nil =>
      cases users <;> simp [seedData, insertMany_INITIAL_SEATS, insertMany_seed_users]
    | cons a as => cases users <;> simp [seedData, insertMany_seed_users]

/-- Bookings are not touched by the seeder. -/
theorem seedData_bookings (s : Store) : (seedData s).bookings = s.bookings := by
  cases s with
  | mk users seats bookings =>
    cases seats with
    | nil =>
      cases users <;> simp [seedData, insertMany_INITIAL_SEATS, insertMany_seed_users]
    | cons a as => cases users <;> simp [seedData, insertMany_seed_users]

/-- Extensionality of stores, collection by collection. -/
theorem Store.ext_collections {s t : Store} (hu : s.users = t.users) (hs : s.seats = t.seats)
    (hb : s.bookings = t.bookings) : s = t := by
  cases s; cases t; simp_all

theorem seededSeats_ne_nil : seededSeats ≠ [] := by decide

theorem seededUsers_ne_nil : seededUsers ≠ [] := by decide

/-- C8 fails as stated: the seat fixture inserted into an empty store has 27
seats, not 24. -/
theorem seedData_empty_not_24 :
    (seedData ⟨[], [], []⟩).seats.length = 27 ∧ (seedData ⟨[], [], []⟩).seats.length ≠ 24 := by
  decide

/-- C8 (amended): the seeder run on an empty store yields exactly the fixed 27
seats of `INITIAL_SEATS`, all with `isMaintenance = false` and pairwise distinct
ids, and exactly 2 users, the first with role ADMIN and the second with role
STUDENT; bookings stay empty. -/
theorem seedData_empty_store :
    seedData ⟨[], [], []⟩ = ⟨seededUsers, seededSeats, []⟩ ∧
    seededSeats.map (fun d => d.id) = INITIAL_SEATS.map (fun o => o.id) ∧
    seededSeats.length = 27 ∧
    (∀ d ∈ seededSeats, d.isMaintenance = false) ∧
    (seededSeats.map (fun d => d.id)).Nodup ∧
    seededUsers.length = 2 ∧
    seededUsers.map (fun u => u.role) = [some "ADMIN", some "STUDENT"] := by
  refine ⟨?_, ?_, ?_, ?_, ?_, ?_, ?_⟩
  · apply Store.ext_collections
    · rw [seedData_users]; rfl
    · rw [seedData_seats]; rfl
    · rw [seedData_bookings]
  · decide
  · decide
  · decide
  · decide
  · decide
  · decide

/-- C9: the seeder is idempotent; seats are seeded exactly when the `Seat`
collection is empty and users exactly when the `User` collection is empty, each
independently of the other; a store with both collections non-empty is left as it
is; bookings are never touched. -/
theorem seedData_idempotent (s : Store) :
    seedData (seedData s) = seedData s ∧
    (seedData s).seats = (if s.seats = [] then seededSeats else s.seats) ∧
    (seedData s).users = (if s.users = [] then seededUsers else s.users) ∧
    (s.seats ≠ [] → s.users ≠ [] → seedData s = s) ∧
    (seedData s).bookings = s.bookings := by
  refine ⟨?_, seedData_seats s, seedData_users s, ?_, seedData_bookings s⟩
  · apply Store.ext_collections
    · rw [seedData_users, seedData_users]
      split <;> simp_all [seededUsers_ne_nil]
    · rw [seedData_seats, seedData_seats]
      split <;> simp_all [seededSeats_ne_nil]
    · rw [seedData_bookings, seedData_bookings]
  · intro hs hu
    apply Store.ext_collections
    · rw [seedData_users, if_neg hu]
    · rw [seedData_seats, if_neg hs]
    · rw [seedData_bookings]

/-- Witness of C9: a store with manual users and seats is left as it is; a store
with seats but no user gets the user fixture only. -/
theorem seedData_idempotent_witness :
    seedData manualStore = manualStore ∧
    seedData abcStore = { abcStore with users := seededUsers } ∧
    seedData (seedData abcStore) = seedData abcStore :=
  ⟨(seedData_idempotent manualStore).2.2.2.1 (by decide) (by decide), by decide,
   (seedData_idempotent abcStore).1⟩

/-! ## Booking creation -/

theorem activeOnSlot_iff (p : BookingBody) (b : Booking) :
    activeOnSlot p b = true ↔
      p.seatId.selects b.seatId = true ∧ p.date.selects b.date = true ∧
        p.startTime.selects b.startTime = true ∧ b.status = some "ACTIVE" := by
  simp [activeOnSlot, and_assoc]

/-- A plain value selects exactly the stored value it is stored as. -/
theorem Value.selects_of_plain (v : Value) (w : Option String) (h : v.isPlain = true) :
    v.selects w = true ↔ w = v.toOption := by
  cases v with
  | absent => simp [Value.selects, Value.toOption]
  | str s => simp [Value.selects, Value.toOption]
  | operator f => simp [Value.isPlain] at h
  | invalid => simp [Value.isPlain] at h

/-- A plain value can be cast. -/
theorem Value.not_invalid_of_plain (v : Value) (h : v.isPlain = true) :
    v.isInvalid = false := by
  cases v <;> simp_all [Value.isPlain, Value.isInvalid]

/-- The document constructor followed by validation: the three filter values must
be plain and the id present and non-empty. -/
theorem Booking.ofBody_eq (p : BookingBody) :
    Booking.ofBody p =
      if (p.seatId.isPlain && p.date.isPlain && p.startTime.isPlain) = true then
        match p.id with
        | none => .error .validation
        | some i => if i = "" then .error .validation else .ok (Booking.doc i p)
      else .error .validation := by
  by_cases hpl : (p.seatId.isPlain && p.date.isPlain && p.startTime.isPlain) = true
  · have h123 : p.seatId.isPlain = true ∧ p.date.isPlain = true ∧ p.startTime.isPlain = true := by
      simpa [Bool.and_eq_true, and_assoc] using hpl
    rw [if_pos hpl]
    cases hid : p.id with
    | none =>
      simp [Booking.ofBody, Value.cast, h123.1, h123.2.1, h123.2.2, requiredString, hid, bind,
        Except.bind]
    | some i =>
      by_cases hi : i = ""
      · simp [Booking.ofBody, Value.cast, h123.1, h123.2.1, h123.2.2, requiredString, hid, hi,
          bind, Except.bind]
      · simp [Booking.ofBody, Value.cast, h123.1, h123.2.1, h123.2.2, requiredString, hid, hi,
          bind, Except.bind, pure, Except.pure]
  · rw [if_neg hpl]
    cases h1 : p.seatId.isPlain <;> cases h2 : p.date.isPlain <;>
      cases h3 : p.startTime.isPlain <;>
      simp_all [Booking.ofBody, Value.cast, bind, Except.bind]

/-- A filter that cannot be cast makes the query throw: 500, nothing written. -/
theorem createBooking_of_invalid (s : Store) (p : BookingBody)
    (h : filterInvalid p = true) : createBooking s p = (s, ⟨500, .failure .cast⟩) := by
  simp [createBooking, h]

/-- When the conflict query finds a booking the handler answers 409 and writes nothing. -/
theorem createBooking_of_taken (s : Store) (p : BookingBody) (hv : filterInvalid p = false)
    (h : ∃ b ∈ s.bookings, activeOnSlot p b = true) : createBooking s p = (s, conflict) := by
  obtain ⟨b, hb, hp⟩ := h
  cases hf : s.bookings.find? (activeOnSlot p) with
  | none =>
    rw [List.find?_eq_none] at hf
    exact absurd hp (hf b hb)
  | some c => simp [createBooking, hv, hf, conflict]

/-- When the conflict query finds nothing the outcome is that of validation and insert. -/
theorem createBooking_of_free (s : Store) (p : BookingBody) (hv : filterInvalid p = false)
    (h : ∀ b ∈ s.bookings, activeOnSlot p b = false) :
    createBooking s p =
      match Booking.ofBody p with
      | .error e => (s, ⟨500, .failure e⟩)
      | .ok booking =>
        if s.bookings.any (fun d => d.id == booking.id) then (s, ⟨500, .failure .duplicateKey⟩)
        else ({ s with bookings := s.bookings ++ [booking] }, ⟨201, .booking (some booking)⟩) := by
  have hf : s.bookings.find? (activeOnSlot p) = none := by
    rw [List.find?_eq_none]
    intro b hb
    simp [h b hb]
  simp only [createBooking, hv, hf, Bool.false_eq_true, if_false]
  cases Booking.ofBody p with
  | error e => rfl
  | ok booking =>
    by_cases hd : s.bookings.any (fun d => d.id == booking.id) = true
    · simp [insertOne, hd]
    · simp only [insertOne, hd, if_false, Bool.false_eq_true]

/-- Either the conflict query finds a booking or it finds none. -/
theorem taken_or_free (s : Store) (p : BookingBody) :
    (∃ b ∈ s.bookings, activeOnSlot p b = true) ∨ (∀ b ∈ s.bookings, activeOnSlot p b = false) := by
  by_cases h : ∃ b ∈ s.bookings, activeOnSlot p b = true
  · exact Or.inl h
  · right
    intro b hb
    cases hp : activeOnSlot p b with
    | false => rfl
    | true => exact absurd ⟨b, hb, hp⟩ h

/-- The outcomes of `createBooking`: the query throws (500), a conflict (409), a
failed validation or insert (500), each without a write, or the document of the
payload is appended (201). -/
theorem createBooking_outcome (s : Store) (p : BookingBody) :
    (filterInvalid p = true ∧ createBooking s p = (s, ⟨500, .failure .cast⟩)) ∨
    (filterInvalid p = false ∧ (∃ b ∈ s.bookings, activeOnSlot p b = true) ∧
      createBooking s p = (s, conflict)) ∨
    (filterInvalid p = false ∧ (∀ b ∈ s.bookings, activeOnSlot p b = false) ∧
      ∃ e, createBooking s p = (s, ⟨500, .failure e⟩)) ∨
    (filterInvalid p = false ∧ (∀ b ∈ s.bookings, activeOnSlot p b = false) ∧
      ∃ i, p.id = some i ∧ i ≠ "" ∧ s.bookings.any (fun d => d.id == i) = false ∧
        (p.seatId.isPlain = true ∧ p.date.isPlain = true ∧ p.startTime.isPlain = true) ∧
        createBooking s p =
          ({ s with bookings := s.bookings ++ [Booking.doc i p] },
           ⟨201, .booking (some (Booking.doc i p))⟩)) := by
  cases hv : filterInvalid p with
  | true => exact Or.inl ⟨rfl, createBooking_of_invalid s p hv⟩
  | false =>
    right
    rcases taken_or_free s p with ht | hf
    · exact Or.inl ⟨rfl, ht, createBooking_of_taken s p hv ht⟩
    · right
      have hc := createBooking_of_free s p hv hf
      rw [Booking.ofBody_eq] at hc
      by_cases hpl : (p.seatId.isPlain && p.date.isPlain && p.startTime.isPlain) = true
      · rw [if_pos hpl] at hc
        cases hid : p.id with
        | none =>
          rw [hid] at hc
          exact Or.inl ⟨rfl, hf, _, hc⟩
        | some i =>
          rw [hid] at hc
          by_cases hi : i = ""
          · simp only [hi, if_true] at hc
            exact Or.inl ⟨rfl, hf, _, hc⟩
          · simp only [hi, if_false] at hc
            by_cases hd : s.bookings.any (fun d => d.id == i) = true
            · have hd2 : s.bookings.any (fun d => d.id == (Booking.doc i p).id) = true := hd
              simp only [hd2, if_true] at hc
              exact Or.inl ⟨rfl, hf, _, hc⟩
            · have hd3 : s.bookings.any (fun d => d.id == i) = false := by simpa using hd
              have hd2 : s.bookings.any (fun d => d.id == (Booking.doc i p).id) = false := hd3
              simp only [hd2, Bool.false_eq_true, if_false] at hc
              exact Or.inr ⟨rfl, hf, i, rfl, hi, hd3,
                by simpa [Bool.and_eq_true, and_assoc] using hpl, hc⟩
      · rw [if_neg hpl] at hc
        exact Or.inl ⟨rfl, hf, _, hc⟩

/-- A payload with plain slot values, a non-empty fresh id and a free slot is accepted. -/
theorem createBooking_accept (s : Store) (p : BookingBody) (i : String)
    (hpl : p.seatId.isPlain = true ∧ p.date.isPlain = true ∧ p.startTime.isPlain = true)
    (hf : ∀ b ∈ s.bookings, activeOnSlot p b = false)
    (hid : p.id = some i) (hi : i ≠ "") (hd : ∀ b ∈ s.bookings, b.id ≠ i) :
    createBooking s p =
      ({ s with bookings := s.bookings ++ [Booking.doc i p] },
       ⟨201, .booking (some (Booking.doc i p))⟩) := by
  have hv : filterInvalid p = false := by
    simp [filterInvalid, Value.not_invalid_of_plain _ hpl.1, Value.not_invalid_of_plain _ hpl.2.1,
      Value.not_invalid_of_plain _ hpl.2.2]
  have hd2 : s.bookings.any (fun d => d.id == (Booking.doc i p).id) = false := by
    cases hany : s.bookings.any (fun d => d.id == (Booking.doc i p).id) with
    | false => rfl
    | true =>
      obtain ⟨a, ha, hc⟩ := List.any_eq_true.1 hany
      exact absurd (by simpa [Booking.doc] using hc) (hd a ha)
  rw [createBooking_of_free s p hv hf, Booking.ofBody_eq]
  simp only [hpl.1, hpl.2.1, hpl.2.2, Bool.and_self, if_true, hid, hi, if_false, hd2,
    Bool.false_eq_true]

/-- C1 fails as stated: the payload carries the operator object `{"$ne": "zzz"}`
as `seatId`; the conflict query selects the stored ACTIVE booking of seat `s1` and
the handler answers the conflict signal, although no stored booking has the
seatId of the payload (nor the seatId `zzz`). -/
theorem createBooking_operator_conflict :
    createBooking bookedStore operatorBooking = (bookedStore, conflict) ∧
    (∀ b ∈ bookedStore.bookings, Value.ofStored b.seatId ≠ operatorBooking.seatId) ∧
    (∀ b ∈ bookedStore.bookings, b.seatId ≠ some "zzz") := by
  refine ⟨by decide, ?_, by decide⟩
  intro b hb
  have hb2 : b = Booking.doc "b1" scenarioBooking := by
    simpa [bookedStore] using hb
  subst hb2
  simp [Value.ofStored, Booking.doc, scenarioBooking, operatorBooking, Value.toOption, Value.ne]

/-- C1 (amended): for every store state and every booking payload whose seatId,
date and startTime are plain values (a string, or absent), `createBooking`
answers with the conflict signal (409, "Seat already booked") if and only if the
store already holds a booking with the same seatId, date and startTime and
status ACTIVE.  For every payload, it answers with the conflict signal if and
only if the filter can be cast and selects a stored booking, the status is 409
only with the conflict signal, and whenever it answers with the conflict signal
the store after the call equals the store before it. -/
theorem createBooking_conflict_iff (s : Store) (p : BookingBody) :
    (p.seatId.isPlain = true → p.date.isPlain = true → p.startTime.isPlain = true →
      ((createBooking s p).2 = conflict ↔
        ∃ b ∈ s.bookings, b.seatId = p.seatId.toOption ∧ b.date = p.date.toOption ∧
          b.startTime = p.startTime.toOption ∧ b.status = some "ACTIVE")) ∧
    ((createBooking s p).2 = conflict ↔
      filterInvalid p = false ∧ ∃ b ∈ s.bookings, activeOnSlot p b = true) ∧
    ((createBooking s p).2.status = 409 ↔ (createBooking s p).2 = conflict) ∧
    ((createBooking s p).2 = conflict → (createBooking s p).1 = s) := by
  have hgen : ((createBooking s p).2 = conflict ↔
      filterInvalid p = false ∧ ∃ b ∈ s.bookings, activeOnSlot p b = true) ∧
      ((createBooking s p).2.status = 409 ↔ (createBooking s p).2 = conflict) ∧
      ((createBooking s p).2 = conflict → (createBooking s p).1 = s) := by
    rcases createBooking_outcome s p with ⟨hv, hc⟩ | ⟨hv, ht, hc⟩ | ⟨hv, hf, e, hc⟩ |
        ⟨hv, hf, i, _, _, _, _, hc⟩
    · rw [hc]
      simp [conflict, hv]
    · rw [hc]
      simp [conflict, hv, ht]
    · rw [hc]
      have hno : ¬ ∃ b ∈ s.bookings, activeOnSlot p b = true := by
        rintro ⟨b, hb, hp⟩
        rw [hf b hb] at hp
        cases hp
      simp [conflict, hno]
    · rw [hc]
      have hno : ¬ ∃ b ∈ s.bookings, activeOnSlot p b = true := by
        rintro ⟨b, hb, hp⟩
        rw [hf b hb] at hp
        cases hp
      simp [conflict, hno]
  refine ⟨?_, hgen.1, hgen.2.1, hgen.2.2⟩
  intro h1 h2 h3
  rw [hgen.1]
  have hv : filterInvalid p = false := by
    simp [filterInvalid, Value.not_invalid_of_plain _ h1, Value.not_invalid_of_plain _ h2,
      Value.not_invalid_of_plain _ h3]
  constructor
  · rintro ⟨_, b, hb, hp⟩
    rw [activeOnSlot_iff, Value.selects_of_plain _ _ h1, Value.selects_of_plain _ _ h2,
      Value.selects_of_plain _ _ h3] at hp
    exact ⟨b, hb, hp⟩
  · rintro ⟨b, hb, hp⟩
    refine ⟨hv, b, hb, ?_⟩
    rw [activeOnSlot_iff, Value.selects_of_plain _ _ h1, Value.selects_of_plain _ _ h2,
      Value.selects_of_plain _ _ h3]
    exact hp

/-- Witness of C1 (amended), the concrete scenario: the scenario booking is
created (201) on the empty store; a second booking for the same slot is answered
with the conflict signal and the store still holds exactly the one ACTIVE
booking; on the empty store itself there is no conflict. -/
theorem createBooking_conflict_iff_witness :
    createBooking ⟨[], [], []⟩ scenarioBooking
      = (bookedStore, ⟨201, .booking (some (Booking.doc "b1" scenarioBooking))⟩) ∧
    (createBooking bookedStore secondBooking).2 = conflict ∧
    (createBooking bookedStore secondBooking).1 = bookedStore ∧
    ¬ (createBooking ⟨[], [], []⟩ scenarioBooking).2 = conflict :=
  ⟨by decide,
   ((createBooking_conflict_iff bookedStore secondBooking).1 rfl rfl rfl).2
     ⟨Booking.doc "b1" scenarioBooking, by decide, by decide⟩,
   (createBooking_conflict_iff bookedStore secondBooking).2.2.2
     (((createBooking_conflict_iff bookedStore secondBooking).1 rfl rfl rfl).2
       ⟨Booking.doc "b1" scenarioBooking, by decide, by decide⟩),
   fun hc => by
     obtain ⟨b, hb, _⟩ :=
       ((createBooking_conflict_iff ⟨[], [], []⟩ scenarioBooking).1 rfl rfl rfl).1 hc
     cases hb⟩

/-- C6 fails as stated: on the empty store a payload with status CANCELLED is
accepted (201) and the booking persisted and returned has status CANCELLED. -/
theorem createBooking_accepts_cancelled :
    createBooking ⟨[], [], []⟩ cancelledPayload =
      (⟨[], [], [Booking.doc "b1" cancelledPayload]⟩,
       ⟨201, .booking (some (Booking.doc "b1" cancelledPayload))⟩) ∧
    (Booking.doc "b1" cancelledPayload).status = some "CANCELLED" ∧
    (Booking.doc "b1" cancelledPayload).status ≠ some "ACTIVE" := by
  decide

/-- C6 (amended): for every store state and every payload that `createBooking`
accepts (201), the booking persisted (appended to the collection) and returned
carries the status of the payload; it has status ACTIVE exactly when the payload
has status ACTIVE. -/
theorem createBooking_status_of_payload (s : Store) (p : BookingBody)
    (h : (createBooking s p).2.status = 201) :
    ∃ booking : Booking,
      (createBooking s p).2.body = .booking (some booking) ∧
      (createBooking s p).1.bookings = s.bookings ++ [booking] ∧
      booking.status = p.status ∧
      (booking.status = some "ACTIVE" ↔ p.status = some "ACTIVE") := by
  rcases createBooking_outcome s p with ⟨_, hc⟩ | ⟨_, _, hc⟩ | ⟨_, _, e, hc⟩ |
      ⟨_, _, i, _, _, _, _, hc⟩
  · rw [hc] at h
    cases h
  · rw [hc] at h
    simp [conflict] at h
  · rw [hc] at h
    cases h
  · rw [hc]
    exact ⟨Booking.doc i p, rfl, rfl, rfl, Iff.rfl⟩

/-- Witness of C6 (amended) on the empty store and a payload with status CANCELLED. -/
theorem createBooking_status_of_payload_witness :
    (createBooking ⟨[], [], []⟩ cancelledPayload).2.status = 201 ∧
    ∃ booking : Booking,
      (createBooking ⟨[], [], []⟩ cancelledPayload).2.body = .booking (some booking) ∧
      (createBooking ⟨[], [], []⟩ cancelledPayload).1.bookings = [] ++ [booking] ∧
      booking.status = cancelledPayload.status ∧
      (booking.status = some "ACTIVE" ↔ cancelledPayload.status = some "ACTIVE") :=
  ⟨by decide, createBooking_status_of_payload ⟨[], [], []⟩ cancelledPayload (by decide)⟩

/-- C10 fails as stated: the seat `s1` is under maintenance, the payload asks for
`s1`, and the handler answers 201 and persists the booking. -/
theorem createBooking_on_maintenance_seat :
    (maintenanceStore.seats.find? (fun d => d.id == "s1")).map (fun d => d.isMaintenance)
      = some true ∧
    scenarioBooking.seatId = Value.str "s1" ∧
    createBooking maintenanceStore scenarioBooking =
      ({ maintenanceStore with bookings := [Booking.doc "b1" scenarioBooking] },
       ⟨201, .booking (some (Booking.doc "b1" scenarioBooking))⟩) :=
  ⟨by decide, rfl, by decide⟩

/-- C10 (amended): `createBooking` never consults the `Seat` collection: for every
store state, every seat collection put in its place (maintenance flags set or
not) and every payload, the response and the resulting users and bookings are the
same, and the seat collection is left as it is. -/
theorem createBooking_ignores_seats (s : Store) (seats : List Seat) (p : BookingBody) :
    createBooking { s with seats := seats } p =
      ({ (createBooking s p).1 with seats := seats }, (createBooking s p).2) := by
  cases hv : filterInvalid p with
  | true =>
    rw [createBooking_of_invalid s p hv, createBooking_of_invalid { s with seats := seats } p hv]
  | false =>
    rcases taken_or_free s p with h | h
    · rw [createBooking_of_taken s p hv h,
        createBooking_of_taken { s with seats := seats } p hv h]
    · rw [createBooking_of_free s p hv h, createBooking_of_free { s with seats := seats } p hv h]
      cases Booking.ofBody p with
      | error e => rfl
      | ok booking =>
        by_cases hd : s.bookings.any (fun d => d.id == booking.id) = true
        · simp [hd]
        · simp [hd]

/-! ## Maintenance toggle -/

/-- The toggle handler when the request is routed and the seat is found. -/
theorem toggleMaintenance_of_found (s : Store) (id : String) (seat : Seat) (hne : id ≠ "")
    (h : s.seats.find? (fun d => d.id == id) = some seat) :
    toggleMaintenance s id =
      ({ s with seats := updateFirst (fun d => d.id == id) Seat.toggle s.seats },
       ⟨200, .seat seat.toggle⟩) := by
  have hc := updateFirst_congr (fun d => d.id == id) (fun _ => seat.toggle) Seat.toggle
    s.seats seat h rfl
  have hid : seat.id = id := by
    have := List.find?_some h
    simpa using this
  have hv : requiredString (some seat.toggle.id) = .ok seat.toggle.id := by
    have : ¬ seat.id = "" := by rw [hid]; exact hne
    simp [requiredString, Seat.toggle, this]
  simp only [toggleMaintenance, hne, if_false, h, hv, hc]

/-- C7 fails as stated: a seat whose id is the empty string is stored by
`POST /api/seats`; the toggle for that id matches no route, so Express answers
its own 404 page and the flag is not negated; and for a store without such a
seat the answer to the empty id is that page too, not the not-found signal. -/
theorem toggleMaintenance_empty_id :
    (replaceSeatLayout ⟨[], [], []⟩ [{ id := "" }]).1 = emptyIdSeatStore ∧
    (∃ seat ∈ emptyIdSeatStore.seats, seat.id = "") ∧
    toggleMaintenance emptyIdSeatStore "" = (emptyIdSeatStore, noRoute) ∧
    emptyIdSeatStore.seats.map (fun d => d.isMaintenance) = [false] ∧
    (toggleMaintenance emptyIdSeatStore "").1.seats.map (fun d => d.isMaintenance) = [false] ∧
    (∀ seat ∈ abcStore.seats, seat.id ≠ "") ∧
    toggleMaintenance abcStore "" = (abcStore, noRoute) ∧
    noRoute ≠ seatNotFound := by
  decide

/-- C7 (amended): for every non-empty id of a stored seat, one application of
`toggleMaintenance` answers 200 with the seat found under that id, its
`isMaintenance` flag negated, and changes nothing else in the store (only the
position of that seat is rewritten); two applications give back the original
store and the original seat; for a non-empty id that no stored seat has, the
handler answers the not-found signal (404, "Seat not found") and leaves the
store unchanged. -/
theorem toggleMaintenance_twice (s : Store) (id : String) (hne : id ≠ "") :
    ((∃ seat ∈ s.seats, seat.id = id) →
      ∃ (i : Nat) (seat : Seat), s.seats[i]? = some seat ∧ seat.id = id ∧
        toggleMaintenance s id =
          ({ s with seats := s.seats.set i { seat with isMaintenance := !seat.isMaintenance } },
           ⟨200, .seat { seat with isMaintenance := !seat.isMaintenance }⟩) ∧
        toggleMaintenance (toggleMaintenance s id).1 id = (s, ⟨200, .seat seat⟩)) ∧
    ((∀ seat ∈ s.seats, seat.id ≠ id) → toggleMaintenance s id = (s, seatNotFound)) := by
  constructor
  · rintro ⟨seat0, hmem, hid0⟩
    cases hf : s.seats.find? (fun d => d.id == id) with
    | none =>
      rw [List.find?_eq_none] at hf
      exact absurd (by simpa using hid0) (hf seat0 hmem)
    | some seat =>
      have hid : seat.id = id := by
        have := List.find?_some hf
        simpa using this
      obtain ⟨i, hi, hset⟩ := updateFirst_eq_set (fun d => d.id == id) Seat.toggle s.seats seat hf
      have h1 := toggleMaintenance_of_found s id seat hne hf
      have hkeep : ∀ a : Seat, (fun d : Seat => d.id == id) a = true →
          (fun d : Seat => d.id == id) a.toggle = true := by
        intro a ha
        simpa [Seat.toggle] using ha
      have hinv : ∀ a : Seat, a.toggle.toggle = a := by
        intro a
        cases a
        simp [Seat.toggle]
      have hf2 : (updateFirst (fun d => d.id == id) Seat.toggle s.seats).find?
          (fun d => d.id == id) = some seat.toggle := by
        rw [find?_updateFirst _ _ _ hkeep, hf]
        rfl
      refine ⟨i, seat, hi, hid, ?_, ?_⟩
      · rw [h1, hset]
        rfl
      · rw [h1]
        rw [toggleMaintenance_of_found _ id seat.toggle hne hf2]
        simp only [updateFirst_invol _ _ _ hkeep hinv, hinv]
  · intro h
    have hf : s.seats.find? (fun d => d.id == id) = none := by
      rw [List.find?_eq_none]
      intro d hd
      simpa using h d hd
    simp [toggleMaintenance, hne, hf, seatNotFound]

/-- Witness of C7 (amended) on the seats A, B, C: toggling C (under maintenance)
twice, and toggling the id Z that no seat has. -/
theorem toggleMaintenance_twice_witness :
    (∃ seat ∈ abcStore.seats, seat.id = "C") ∧
    (toggleMaintenance abcStore "C").1.seats.map (fun d => d.isMaintenance)
      = [false, false, false] ∧
    (toggleMaintenance (toggleMaintenance abcStore "C").1 "C").1 = abcStore ∧
    (∃ (i : Nat) (seat : Seat), abcStore.seats[i]? = some seat ∧ seat.id = "C" ∧
        toggleMaintenance abcStore "C" =
          ({ abcStore with
              seats := abcStore.seats.set i { seat with isMaintenance := !seat.isMaintenance } },
           ⟨200, .seat { seat with isMaintenance := !seat.isMaintenance }⟩) ∧
        toggleMaintenance (toggleMaintenance abcStore "C").1 "C"
          = (abcStore, ⟨200, .seat seat⟩)) ∧
    toggleMaintenance abcStore "Z" = (abcStore, seatNotFound) :=
  ⟨by decide, by decide, by decide,
   (toggleMaintenance_twice abcStore "C" (by decide)).1 (by decide),
   (toggleMaintenance_twice abcStore "Z" (by decide)).2 (by decide)⟩

/-! ## Bookings under the handlers -/

/-- A cancelled booking is not active. -/
theorem Booking.cancel_not_active (b : Booking) : ¬ b.cancel.isActive := by
  simp [Booking.cancel, Booking.isActive]

/-- Cancelling an already CANCELLED booking changes nothing. -/
theorem Booking.cancel_of_cancelled (b : Booking) (h : b.status = some "CANCELLED") :
    b.cancel = b := by
  cases b
  simp_all [Booking.cancel]

/-- What `createBooking` does to the `Booking` collection: nothing, or it appends
the document of the payload, and then no ACTIVE booking held the slot. -/
theorem createBooking_bookings (s : Store) (p : BookingBody) :
    (createBooking s p).1.bookings = s.bookings ∨
    ∃ i, (∀ c ∈ s.bookings, activeOnSlot p c = false) ∧
      (p.seatId.isPlain = true ∧ p.date.isPlain = true ∧ p.startTime.isPlain = true) ∧
      (createBooking s p).1.bookings = s.bookings ++ [Booking.doc i p] := by
  rcases createBooking_outcome s p with ⟨_, hc⟩ | ⟨_, _, hc⟩ | ⟨_, _, e, hc⟩ |
      ⟨_, hf, i, _, _, _, hpl, hc⟩
  · left; rw [hc]
  · left; rw [hc]
  · left; rw [hc]
  · right
    exact ⟨i, hf, hpl, by rw [hc]⟩

/-- What one request does to the `Booking` collection: nothing, an append by
`createBooking` on a free slot, or the cancellation of the first booking of an id. -/
theorem step_bookings (s : Store) (op : Op) :
    (step s op).1.bookings = s.bookings ∨
    (∃ p i, (∀ c ∈ s.bookings, activeOnSlot p c = false) ∧
      (p.seatId.isPlain = true ∧ p.date.isPlain = true ∧ p.startTime.isPlain = true) ∧
      (step s op).1.bookings = s.bookings ++ [Booking.doc i p]) ∨
    (∃ id, (step s op).1.bookings =
      updateFirst (fun b => b.id == id) Booking.cancel s.bookings) := by
  cases op with
  | listUsers => left; rfl
  | createUser body =>
    left
    simp only [step, createUser]
    split
    · rfl
    · split <;> rfl
  | updateUser id body =>
    left
    simp only [step, updateUser]
    split
    · rfl
    · split <;> rfl
  | listSeats => left; rfl
  | replaceSeatLayout seats => left; rfl
  | toggleMaintenance id =>
    left
    simp only [step, toggleMaintenance]
    split
    · rfl
    · split
      · split <;> rfl
      · rfl
  | listBookings => left; rfl
  | createBooking body =>
    rcases createBooking_bookings s body with h | ⟨i, hf, hpl, h⟩
    · left; exact h
    · right; left; exact ⟨body, i, hf, hpl, h⟩
  | cancelBooking id => right; right; exact ⟨id, rfl⟩

/-- Slot uniqueness read by positions: two bookings at different positions of the
collection are never both ACTIVE on the same slot. -/
theorem slotUnique_iff_positions (l : List Booking) :
    SlotUnique l ↔
      ∀ (i j : Nat) (a b : Booking), i ≠ j → l[i]? = some a → l[j]? = some b →
        a.status = some "ACTIVE" → b.status = some "ACTIVE" →
        ¬ (a.seatId = b.seatId ∧ a.date = b.date ∧ a.startTime = b.startTime) := by
  unfold SlotUnique
  rw [List.pairwise_iff_getElem]
  constructor
  · intro h i j a b hij hi hj ha hb hs
    obtain ⟨hil, hia⟩ := List.getElem?_eq_some.1 hi
    obtain ⟨hjl, hjb⟩ := List.getElem?_eq_some.1 hj
    rcases Nat.lt_or_gt_of_ne hij with hlt | hgt
    · apply h i j hil hjl hlt
      rw [hia, hjb]
      exact ⟨ha, hb, hs⟩
    · apply h j i hjl hil hgt
      rw [hia, hjb]
      exact ⟨hb, ha, hs.1.symm, hs.2.1.symm, hs.2.2.symm⟩
  · intro h i j hil hjl hlt hc
    exact h i j l[i] l[j] (Nat.ne_of_lt hlt) (List.getElem?_eq_getElem hil)
      (List.getElem?_eq_getElem hjl) hc.1 hc.2.1 hc.2.2

/-- One request keeps slot uniqueness. -/
theorem step_slotUnique (s : Store) (op : Op) (h : SlotUnique s.bookings) :
    SlotUnique (step s op).1.bookings := by
  rcases step_bookings s op with h1 | ⟨p, i, hf, hpl, h1⟩ | ⟨id, h1⟩
  · rw [h1]; exact h
  · rw [h1]
    unfold SlotUnique
    rw [List.pairwise_append]
    refine ⟨h, List.pairwise_singleton _ _, ?_⟩
    intro a ha b hb
    rw [List.mem_singleton] at hb
    subst hb
    rintro ⟨hact, _, hs1, hs2, hs3⟩
    have hfa := hf a ha
    have : activeOnSlot p a = true := by
      rw [activeOnSlot_iff, Value.selects_of_plain _ _ hpl.1, Value.selects_of_plain _ _ hpl.2.1,
        Value.selects_of_plain _ _ hpl.2.2]
      exact ⟨hs1, hs2, hs3, hact⟩
    rw [this] at hfa
    cases hfa
  · rw [h1]
    apply updateFirst_pairwise
    · intro a b _ hc
      exact Booking.cancel_not_active a hc.1
    · intro a b _ hc
      exact Booking.cancel_not_active b hc.2.1
    · exact h

/-- Requests served one after another keep slot uniqueness. -/
theorem run_slotUnique (ops : List Op) :
    ∀ s : Store, SlotUnique s.bookings → SlotUnique (run s ops).bookings := by
  induction ops with
  | nil => intro s h; exact h
  | cons op ops ih =>
    intro s h
    exact ih (step s op).1 (step_slotUnique s op h)

/-- C2: slot uniqueness is an invariant of the handlers run one after another:
from any store in which no two ACTIVE bookings share a slot (seatId, date,
startTime), and in particular from the empty store, every finite sequence of
requests (with arbitrary payloads) leads to a store in which no two ACTIVE
bookings share a slot. -/
theorem slotUnique_invariant (s : Store) (ops : List Op) :
    (SlotUnique s.bookings → SlotUnique (run s ops).bookings) ∧
    SlotUnique (run ⟨[], [], []⟩ ops).bookings :=
  ⟨run_slotUnique ops s, run_slotUnique ops ⟨[], [], []⟩ List.Pairwise.nil⟩

/-- Witness of C2: two creations on one slot, a cancellation and a re-creation,
from the empty store (two ACTIVE bookings on the slot would break the invariant). -/
theorem slotUnique_invariant_witness :
    SlotUnique (⟨[], [], []⟩ : Store).bookings ∧
    ¬ SlotUnique [Booking.doc "b1" scenarioBooking, Booking.doc "b2" secondBooking] ∧
    (run ⟨[], [], []⟩ [.createBooking scenarioBooking, .createBooking secondBooking,
        .cancelBooking "b1", .createBooking secondBooking]).bookings.map
        (fun b => (b.id, b.status))
      = [("b1", some "CANCELLED"), ("b2", some "ACTIVE")] ∧
    SlotUnique (run ⟨[], [], []⟩ [.createBooking scenarioBooking, .createBooking secondBooking,
        .cancelBooking "b1", .createBooking secondBooking]).bookings :=
  ⟨List.Pairwise.nil, by decide, by decide,
   (slotUnique_invariant ⟨[], [], []⟩ [.createBooking scenarioBooking,
      .createBooking secondBooking, .cancelBooking "b1", .createBooking secondBooking]).1
      List.Pairwise.nil⟩

/-- C5: cancellation is terminal.  For every store and every single request, a
booking that has status CANCELLED before the request sits unchanged at the same
position after it (so it is still CANCELLED); `cancelBooking` on the id of an
already CANCELLED booking answers 200 with that booking and leaves the store as
it is; and `cancelBooking` applied twice gives the store of one application. -/
theorem cancelled_is_terminal (s : Store) :
    (∀ (op : Op) (i : Nat) (b : Booking), s.bookings[i]? = some b →
      b.status = some "CANCELLED" → (step s op).1.bookings[i]? = some b) ∧
    (∀ (id : String) (b : Booking), s.bookings.find? (fun d => d.id == id) = some b →
      b.status = some "CANCELLED" → cancelBooking s id = (s, ⟨200, .booking (some b)⟩)) ∧
    (∀ b ∈ s.bookings, (s.bookings.map (fun d => d.id)).Nodup →
      b.status = some "CANCELLED" → cancelBooking s b.id = (s, ⟨200, .booking (some b)⟩)) ∧
    (∀ id : String, (cancelBooking (cancelBooking s id).1 id).1 = (cancelBooking s id).1) := by
  have hsecond : ∀ (id : String) (b : Booking),
      s.bookings.find? (fun d => d.id == id) = some b →
      b.status = some "CANCELLED" → cancelBooking s id = (s, ⟨200, .booking (some b)⟩) := by
    intro id b hf hb
    have hc := updateFirst_fixed (fun d => d.id == id) Booking.cancel s.bookings b hf
      (Booking.cancel_of_cancelled b hb)
    simp [cancelBooking, hf, hc, Booking.cancel_of_cancelled b hb]
  refine ⟨?_, hsecond, ?_, ?_⟩
  · intro op i b hi hb
    rcases step_bookings s op with h1 | ⟨p, j, _, _, h1⟩ | ⟨id, h1⟩
    · rw [h1]; exact hi
    · rw [h1]
      have hlt : i < s.bookings.length := by
        by_contra hge
        rw [List.getElem?_eq_none (by omega)] at hi
        cases hi
      rw [List.getElem?_append_left hlt]
      exact hi
    · rw [h1]
      rcases updateFirst_getElem? (fun b => b.id == id) Booking.cancel s.bookings i with h2 | h2
      · rw [h2]; exact hi
      · rw [h2, hi]
        simp [Booking.cancel_of_cancelled b hb]
  · intro b hb hn hst
    exact hsecond b.id b (find?_key_of_nodup (fun d => d.id) s.bookings b hn hb) hst
  · intro id
    simp only [cancelBooking]
    rw [updateFirst_idem]
    · intro a ha
      simpa [Booking.cancel] using ha
    · intro a
      rfl

/-- Witness of C5: the store after creating and cancelling the scenario booking;
a second cancellation answers 200 with the cancelled booking and changes nothing,
and a new creation on the slot leaves the cancelled booking in place. -/
theorem cancelled_is_terminal_witness :
    cancelledStore.bookings[0]? = some (Booking.doc "b1" scenarioBooking).cancel ∧
    (Booking.doc "b1" scenarioBooking).cancel.status = some "CANCELLED" ∧
    (step cancelledStore (.createBooking secondBooking)).1.bookings[0]?
      = some (Booking.doc "b1" scenarioBooking).cancel ∧
    (step cancelledStore (.cancelBooking "b1")).1.bookings[0]?
      = some (Booking.doc "b1" scenarioBooking).cancel ∧
    cancelBooking cancelledStore "b1"
      = (cancelledStore, ⟨200, .booking (some (Booking.doc "b1" scenarioBooking).cancel)⟩) :=
  ⟨by decide, by decide,
   (cancelled_is_terminal cancelledStore).1 (.createBooking secondBooking) 0 _
     (by decide) (by decide),
   (cancelled_is_terminal cancelledStore).1 (.cancelBooking "b1") 0 _ (by decide) (by decide),
   (cancelled_is_terminal cancelledStore).2.1 "b1" _ (by decide) (by decide)⟩

/-! ## Re-booking after cancellation -/

/-- C4 fails as stated: after creating and cancelling the scenario booking, a
payload for the same slot whose id is the empty string (an id no stored booking
has) is rejected by the `required` validator: status 500, nothing persisted. -/
theorem rebook_empty_id_rejected :
    (createBooking ⟨[], [], []⟩ scenarioBooking).2.status = 201 ∧
    cancelledStore = (cancelBooking (createBooking ⟨[], [], []⟩ scenarioBooking).1 "b1").1 ∧
    (emptyIdBooking.seatId = scenarioBooking.seatId ∧ emptyIdBooking.date = scenarioBooking.date ∧
      emptyIdBooking.startTime = scenarioBooking.startTime) ∧
    emptyIdBooking.id = some "" ∧
    (∀ b ∈ cancelledStore.bookings, b.id ≠ "") ∧
    createBooking cancelledStore emptyIdBooking
      = (cancelledStore, ⟨500, .failure .validation⟩) ∧
    (createBooking cancelledStore emptyIdBooking).2.status ≠ 201 :=
  ⟨by decide, by decide, ⟨rfl, rfl, rfl⟩, by decide, by decide, by decide, by decide⟩

/-- C4 (amended): if `createBooking` accepts a booking b1 (201) under id `id1`,
then `cancelBooking(id1)` is applied, then `createBooking` is called with a
booking b2 for the same (seatId, date, startTime) whose id is a non-empty string
that no stored booking has, the second create answers 201 with the document of
b2 and that document is persisted (appended after the cancelled b1). -/
theorem rebook_after_cancel (s : Store) (b1 b2 : BookingBody) (id1 id2 : String)
    (hid1 : b1.id = some id1)
    (hacc : (createBooking s b1).2.status = 201)
    (hslot : b2.seatId = b1.seatId ∧ b2.date = b1.date ∧ b2.startTime = b1.startTime)
    (hid2 : b2.id = some id2) (hne : id2 ≠ "")
    (hfresh : ∀ b ∈ (cancelBooking (createBooking s b1).1 id1).1.bookings, b.id ≠ id2) :
    createBooking (cancelBooking (createBooking s b1).1 id1).1 b2 =
      ({ s with bookings := s.bookings ++ [(Booking.doc id1 b1).cancel, Booking.doc id2 b2] },
       ⟨201, .booking (some (Booking.doc id2 b2))⟩) := by
  rcases createBooking_outcome s b1 with ⟨_, hc⟩ | ⟨_, _, hc⟩ | ⟨_, _, e, hc⟩ |
      ⟨_, hf, i, hi1, _, hd, hpl, hc⟩
  · rw [hc] at hacc
    cases hacc
  · rw [hc] at hacc
    simp [conflict] at hacc
  · rw [hc] at hacc
    cases hacc
  · have hii : i = id1 := by
      rw [hid1] at hi1
      exact (Option.some.inj hi1).symm
    subst hii
    have hno : ∀ a ∈ s.bookings, (fun b : Booking => b.id == i) a = false := by
      intro a ha
      cases hc2 : (a.id == i) with
      | false => exact hc2
      | true =>
        have : s.bookings.any (fun d => d.id == i) = true := List.any_eq_true.2 ⟨a, ha, hc2⟩
        rw [hd] at this
        cases this
    have h2 : (cancelBooking (createBooking s b1).1 i).1 =
        { s with bookings := s.bookings ++ [(Booking.doc i b1).cancel] } := by
      rw [hc]
      simp only [cancelBooking]
      rw [updateFirst_append_last _ _ _ _ hno (by simp [Booking.doc])]
    rw [h2] at hfresh ⊢
    have hpl2 : b2.seatId.isPlain = true ∧ b2.date.isPlain = true ∧
        b2.startTime.isPlain = true := by
      rw [hslot.1, hslot.2.1, hslot.2.2]
      exact hpl
    have hfree2 : ∀ b ∈ s.bookings ++ [(Booking.doc i b1).cancel],
        activeOnSlot b2 b = false := by
      intro b hb
      rcases List.mem_append.1 hb with hb | hb
      · have := hf b hb
        simpa [activeOnSlot, hslot.1, hslot.2.1, hslot.2.2] using this
      · rw [List.mem_singleton] at hb
        subst hb
        simp [activeOnSlot, Booking.cancel]
    rw [createBooking_accept _ b2 id2 hpl2 hfree2 hid2 hne hfresh]
    simp

/-- Witness of C4 (amended): the scenario booking is created and cancelled, then
the slot is booked again under the fresh id `b2`. -/
theorem rebook_after_cancel_witness :
    (createBooking ⟨[], [], []⟩ scenarioBooking).2.status = 201 ∧
    createBooking (cancelBooking (createBooking ⟨[], [], []⟩ scenarioBooking).1 "b1").1
        secondBooking =
      ({ (⟨[], [], []⟩ : Store) with
          bookings := [] ++ [(Booking.doc "b1" scenarioBooking).cancel,
            Booking.doc "b2" secondBooking] },
       ⟨201, .booking (some (Booking.doc "b2" secondBooking))⟩) :=
  ⟨by decide,
   rebook_after_cancel ⟨[], [], []⟩ scenarioBooking secondBooking "b1" "b2" (by decide)
     (by decide) ⟨rfl, rfl, rfl⟩ (by decide) (by decide) (by decide)⟩

/-! ## Seat reconciliation -/

/-- Ids after one upsert: unchanged when the id is stored, else the id is appended. -/
theorem upsertSeat_ids (coll : List Seat) (seat : SeatBody) :
    (upsertSeat coll seat).map (fun d => d.id) =
      if seat.id ∈ coll.map (fun d => d.id) then coll.map (fun d => d.id)
      else coll.map (fun d => d.id) ++ [seat.id] := by
  by_cases h : coll.any (fun d => d.id == seat.id) = true
  · have hmem : seat.id ∈ coll.map (fun d => d.id) := by
      obtain ⟨a, ha, hp⟩ := List.any_eq_true.1 h
      have : a.id = seat.id := by simpa using hp
      rw [← this]
      exact List.mem_map_of_mem (fun d => d.id) ha
    rw [if_pos hmem]
    simp only [upsertSeat, h, if_true]
    apply updateFirst_map
    intro a ha
    have : a.id = seat.id := by simpa using ha
    simp [Seat.set, this]
  · have hmem : seat.id ∉ coll.map (fun d => d.id) := by
      intro hc
      obtain ⟨a, ha, he⟩ := List.mem_map.1 hc
      exact h (List.any_eq_true.2 ⟨a, ha, by simpa using he⟩)
    rw [if_neg hmem]
    simp [upsertSeat, h, Seat.ofBody]

theorem upsertSeat_mem_ids (coll : List Seat) (seat : SeatBody) (i : String) :
    i ∈ (upsertSeat coll seat).map (fun d => d.id) ↔
      i ∈ coll.map (fun d => d.id) ∨ i = seat.id := by
  rw [upsertSeat_ids]
  by_cases h : seat.id ∈ coll.map (fun d => d.id)
  · rw [if_pos h]
    constructor
    · intro hi; exact Or.inl hi
    · rintro (hi | hi)
      · exact hi
      · rw [hi]; exact h
  · rw [if_neg h]
    simp

theorem upsertSeat_nodup (coll : List Seat) (seat : SeatBody)
    (hn : (coll.map (fun d => d.id)).Nodup) :
    ((upsertSeat coll seat).map (fun d => d.id)).Nodup := by
  rw [upsertSeat_ids]
  by_cases h : seat.id ∈ coll.map (fun d => d.id)
  · rw [if_pos h]; exact hn
  · rw [if_neg h]
    rw [List.nodup_append]
    refine ⟨hn, List.nodup_singleton _, ?_⟩
    intro a ha hb
    rw [List.mem_singleton] at hb
    subst hb
    exact h ha

/-- Ids after the loop of upserts: the ids stored before and the ids of the list,
each once when the stored ids were unique. -/
theorem foldl_upsertSeat_ids (seats : List SeatBody) :
    ∀ coll : List Seat,
      (∀ i, i ∈ (seats.foldl upsertSeat coll).map (fun d => d.id) ↔
        i ∈ coll.map (fun d => d.id) ∨ i ∈ seats.map (fun o => o.id)) ∧
      ((coll.map (fun d => d.id)).Nodup →
        ((seats.foldl upsertSeat coll).map (fun d => d.id)).Nodup) := by
  induction seats with
  | nil =>
    intro coll
    simp
  | cons seat rest ih =>
    intro coll
    obtain ⟨h1, h2⟩ := ih (upsertSeat coll seat)
    constructor
    · intro i
      rw [List.foldl_cons, h1 i, upsertSeat_mem_ids, List.map_cons, List.mem_cons]
      tauto
    · intro hn
      exact h2 (upsertSeat_nodup coll seat hn)

/-- C3: seat reconciliation.  For every store with unique seat ids and every seat
list, `replaceSeatLayout` answers the success acknowledgment and afterwards the
ids of the stored seats are exactly the ids occurring in the list, one stored
seat per id: every stored seat whose id is not in the list is gone, every id of
the list is present; users and bookings are untouched. -/
theorem replaceSeatLayout_ids (s : Store) (seatList : List SeatBody)
    (h : (s.seats.map (fun d => d.id)).Nodup) :
    (replaceSeatLayout s seatList).2 = ⟨200, .success⟩ ∧
    (∀ i, i ∈ (replaceSeatLayout s seatList).1.seats.map (fun d => d.id) ↔
      i ∈ seatList.map (fun o => o.id)) ∧
    ((replaceSeatLayout s seatList).1.seats.map (fun d => d.id)).Nodup ∧
    (∀ d ∈ s.seats, d.id ∉ seatList.map (fun o => o.id) →
      d ∉ (replaceSeatLayout s seatList).1.seats) ∧
    (replaceSeatLayout s seatList).1.users = s.users ∧
    (replaceSeatLayout s seatList).1.bookings = s.bookings := by
  have hkept : ∀ i, i ∈ (deleteMany (fun d : Seat =>
      !(seatList.map (fun o => o.id)).contains d.id) s.seats).map (fun d => d.id) →
      i ∈ seatList.map (fun o => o.id) := by
    intro i hi
    obtain ⟨d, hd, he⟩ := List.mem_map.1 hi
    simp only [deleteMany, List.mem_filter, Bool.not_not] at hd
    rw [← he]
    simpa using hd.2
  have hnd : ((deleteMany (fun d : Seat =>
      !(seatList.map (fun o => o.id)).contains d.id) s.seats).map (fun d => d.id)).Nodup := by
    apply List.Nodup.sublist _ h
    exact List.Sublist.map _ (List.filter_sublist _)
  obtain ⟨h1, h2⟩ := foldl_upsertSeat_ids seatList
    (deleteMany (fun d : Seat => !(seatList.map (fun o => o.id)).contains d.id) s.seats)
  have hiff : ∀ i, i ∈ (replaceSeatLayout s seatList).1.seats.map (fun d => d.id) ↔
      i ∈ seatList.map (fun o => o.id) := by
    intro i
    simp only [replaceSeatLayout]
    rw [h1 i]
    constructor
    · rintro (hi | hi)
      · exact hkept i hi
      · exact hi
    · intro hi
      exact Or.inr hi
  refine ⟨rfl, hiff, ?_, ?_, rfl, rfl⟩
  · simp only [replaceSeatLayout]
    exact h2 hnd
  · intro d _ hnot hd
    exact hnot ((hiff d.id).1 (List.mem_map_of_mem (fun d => d.id) hd))

/-- Witness of C3: stored seats A, B, C and the layout B, C, D give exactly the
seats B, C, D. -/
theorem replaceSeatLayout_ids_witness :
    (abcStore.seats.map (fun d => d.id)) = ["A", "B", "C"] ∧
    (replaceSeatLayout abcStore bcdLayout).1.seats.map (fun d => d.id) = ["B", "C", "D"] ∧
    ((replaceSeatLayout abcStore bcdLayout).2 = ⟨200, .success⟩ ∧
    (∀ i, i ∈ (replaceSeatLayout abcStore bcdLayout).1.seats.map (fun d => d.id) ↔
      i ∈ bcdLayout.map (fun o => o.id)) ∧
    ((replaceSeatLayout abcStore bcdLayout).1.seats.map (fun d => d.id)).Nodup ∧
    (∀ d ∈ abcStore.seats, d.id ∉ bcdLayout.map (fun o => o.id) →
      d ∉ (replaceSeatLayout abcStore bcdLayout).1.seats) ∧
    (replaceSeatLayout abcStore bcdLayout).1.users = abcStore.users ∧
    (replaceSeatLayout abcStore bcdLayout).1.bookings = abcStore.bookings) :=
  ⟨by decide, by decide, replaceSeatLayout_ids abcStore bcdLayout (by decide)⟩

end LibBook
